import Mathlib

/-!
Shallow embedding of `src/main.py` (pump-monitor, class `TokenMonitor`).

External systems (the redis dedup store, the DeepSeek analysis client, the
GMGN market-data client, the Telegram bot) are modelled as an explicit
environment `Env` of oracle functions returning `Except Err _` (an `error`
models a raised Python exception).  The redis store is modelled as an explicit
key-value state threaded through `process_contract`.  Every externally visible
action is recorded in an event trace, so that ordering and "never invoked"
properties can be stated.

Methods that `src/main.py` calls on `self` but never defines
(`get_market_context`, `parse_response`, `gmgn_safety_check`,
`check_dev_expertise`, `verify_market_hype`, `simulate_trading`,
`fusion_results`, `generate_visual_report`) are modelled as oracle fields of
`Env`; `fusion_results` is the one the spec constrains, see
`fusionDegradesNull` below.
-/

namespace PumpMonitor

/-- Python exception values, abstracted to their message. -/
abbrev Err := String

/-- A discovered token contract (the fields `src/main.py` reads:
`address`, `symbol`, `dev_address`, `liquidity`). -/
structure Contract where
  address : String
  symbol : String
  dev_address : String
  liquidity : Int
deriving DecidableEq, Repr

/-- An analysis record: the spec only constrains it to carry a `grade`
field, which is the only field `src/main.py` reads. -/
structure Analysis where
  grade : String
deriving DecidableEq, Repr

/-- The fixed-shape result of `cross_validate`. -/
structure Verification where
  dev_skill : Int
  hype_index : Int
  volatility : Int
deriving DecidableEq, Repr

/-- The visual report handed to `push_alert` (`text` plus a `chart` blob). -/
structure Report where
  text : String
  chart : String
deriving DecidableEq, Repr

/-- Externally visible actions of one pipeline run, in program order. -/
inductive Event where
  | setex (addr : String) (ttl : Nat) (value : String)
  | redisDelete (addr : String)
  | safetyCheck (addr : String)
  | marketContext
  | deepseekAttempt (k : Nat)
  | sleep (secs : Nat)
  | devCheck (dev : String)
  | hypeCheck (sym : String)
  | simTrading (liq : Int)
  | genReport (addr : String)
  | pushAlert
deriving DecidableEq, Repr

/-- The redis dedup store: address to (ttl, value). -/
abbrev Store := String → Option (Nat × String)

/-- `redis.setex(key, ttl, value)`. -/
def Store.setex (s : Store) (key : String) (ttl : Nat) (value : String) : Store :=
  fun k => if k = key then some (ttl, value) else s k

/-- `redis.delete(key)`. -/
def Store.del (s : Store) (key : String) : Store :=
  fun k => if k = key then none else s k

/-- The external world: each field models one external call made by
`src/main.py`.  `deepseekAttempt` bundles the `deepseek.chat.completions.create`
call together with `parse_response` (both run inside the retried `try` block);
its `Nat` argument is the attempt index, modelling that a transient service
may answer differently on different attempts. -/
structure Env where
  gmgn_safety_check : Contract → Except Err Bool
  get_market_context : Except Err String
  renderPrompt : Contract → String → String
  deepseekAttempt : String → Nat → Except Err Analysis
  check_dev_expertise : String → Except Err Int
  verify_market_hype : String → Except Err Int
  simulate_trading : Int → Except Err Int
  fusion_results : Option Analysis → Verification → Analysis
  generate_visual_report : Contract → Analysis → Except Err Report
  send_photo : String → String → String → Except Err Unit
  tg_chat_id : String

/-- `self.investment_grade = ["A+", "A", "B+"]` from `TokenMonitor.__init__`. -/
def investment_grade : List String := ["A+", "A", "B+"]

/-- The `for retry in range(3)` loop of `base_analysis`: attempt the DeepSeek
call; on success return the parsed analysis, on an exception log, sleep
`2 ** retry` seconds and continue; after the loop return `None`.
`fuel` is the number of remaining iterations and `k` the current value of
`retry`, so the loop of the source is `retryLoop env prompt 3 0`. -/
def retryLoop (env : Env) (prompt : String) : Nat → Nat → Option Analysis × List Event
  | 0, _ => (none, [])
  | fuel + 1, k =>
    match env.deepseekAttempt prompt k with
    | .ok a => (some a, [.deepseekAttempt k])
    | .error _ =>
      let r := retryLoop env prompt fuel (k + 1)
      (r.1, .deepseekAttempt k :: .sleep (2 ^ k) :: r.2)

/-- `TokenMonitor.base_analysis`: format the prompt from the template and the
market context, then run the retry loop.  Only the `get_market_context` call
sits outside the `try`, so it is the only source of a raised exception. -/
def base_analysis (env : Env) (c : Contract) :
    Except Err (Option Analysis) × List Event :=
  match env.get_market_context with
  | .error e => (.error e, [.marketContext])
  | .ok mkt =>
    let r := retryLoop env (env.renderPrompt c mkt) 3 0
    (.ok r.1, .marketContext :: r.2)

/-- `TokenMonitor.cross_validate`: gather the three independent checks on
`dev_address`, `symbol` and `liquidity`; any failure propagates.  The
`analysis` argument is received (as in the source) but never used. -/
def cross_validate (env : Env) (c : Contract) (analysis : Option Analysis) :
    Except Err Verification × List Event :=
  let _ := analysis
  let tr : List Event :=
    [.devCheck c.dev_address, .hypeCheck c.symbol, .simTrading c.liquidity]
  match env.check_dev_expertise c.dev_address with
  | .error e => (.error e, tr)
  | .ok d =>
    match env.verify_market_hype c.symbol with
    | .error e => (.error e, tr)
    | .ok h =>
      match env.simulate_trading c.liquidity with
      | .error e => (.error e, tr)
      | .ok v => (.ok { dev_skill := d, hype_index := h, volatility := v }, tr)

/-- `TokenMonitor.enhanced_analysis`: base analysis, then cross-validation
(receiving the base result as its second argument), then fusion. -/
def enhanced_analysis (env : Env) (c : Contract) :
    Except Err Analysis × List Event :=
  match base_analysis env c with
  | (.error e, tr) => (.error e, tr)
  | (.ok analysis, tr1) =>
    match cross_validate env c analysis with
    | (.error e, tr2) => (.error e, tr1 ++ tr2)
    | (.ok verification, tr2) =>
      (.ok (env.fusion_results analysis verification), tr1 ++ tr2)

/-- The caption built by `push_alert` around the report text. -/
def alert_caption (text : String) : String :=
  "📈 **DeepSeek精选警报** 📉\n" ++ text

/-- `TokenMonitor.push_alert`: send the chart as a photo with the caption to
the configured chat; a send failure propagates. -/
def push_alert (env : Env) (report : Report) : Except Err Unit × List Event :=
  (env.send_photo env.tg_chat_id report.chart (alert_caption report.text),
    [.pushAlert])

/-- The body of the `try` block of `process_contract`: safety filter (early
return on `False`), enhanced analysis, grade gate (early return when the fused
grade is not in `investment_grade`), visual report, push. -/
def pipeline_body (env : Env) (c : Contract) : Except Err Unit × List Event :=
  match env.gmgn_safety_check c with
  | .error e => (.error e, [.safetyCheck c.address])
  | .ok false => (.ok (), [.safetyCheck c.address])
  | .ok true =>
    match enhanced_analysis env c with
    | (.error e, tr1) => (.error e, .safetyCheck c.address :: tr1)
    | (.ok analysis, tr1) =>
      if analysis.grade ∈ investment_grade then
        match env.generate_visual_report c analysis with
        | .error e =>
          (.error e, .safetyCheck c.address :: tr1 ++ [.genReport c.address])
        | .ok report =>
          let p := push_alert env report
          (p.1, .safetyCheck c.address :: tr1 ++ .genReport c.address :: p.2)
      else
        (.ok (), .safetyCheck c.address :: tr1)

/-- `TokenMonitor.process_contract`: skip when a dedup record exists;
otherwise set the `processing` marker with a 600 second expiry, run the
pipeline body, and (`finally`) delete the marker whatever the outcome, the
body's result (value or exception) then propagating. -/
def process_contract (env : Env) (s : Store) (c : Contract) :
    Except Err Unit × Store × List Event :=
  if (s c.address).isSome then
    (.ok (), s, [])
  else
    let r := pipeline_body env c
    (r.1, (s.setex c.address 600 "processing").del c.address,
      .setex c.address 600 "processing" :: r.2 ++ [.redisDelete c.address])

/-- Events belonging to the analysis stage (base analysis and
cross-validation). -/
def isAnalysisEvent : Event → Bool
  | .marketContext => true
  | .deepseekAttempt _ => true
  | .sleep _ => true
  | .devCheck _ => true
  | .hypeCheck _ => true
  | .simTrading _ => true
  | _ => false

/-- Number of DeepSeek attempts recorded in a trace. -/
def attemptCount (tr : List Event) : Nat :=
  tr.countP (fun ev => match ev with | .deepseekAttempt _ => true | _ => false)

/-- Modelled from the spec: `fusion_results` is called in `src/main.py` but
defined nowhere in the repository, and the spec calls the exact fusion rule an
open question.  The one behaviour the spec does fix is that a null base
analysis degrades to "no analysis" and is treated as a filter-rejection, i.e.
the fused grade lies outside the accepted set. -/
def fusionDegradesNull (env : Env) : Prop :=
  ∀ v : Verification, (env.fusion_results none v).grade ∉ investment_grade

/-- The trace left by attempts `0, …, n-1` all failing: each failed attempt
is followed by a `2 ^ k` second backoff sleep. -/
def backoffEvents : Nat → List Event
  | 0 => []
  | k + 1 => backoffEvents k ++ [.deepseekAttempt k, .sleep (2 ^ k)]

/-! Concrete instances used by the witness theorems. -/

/-- A sample contract. -/
def c0 : Contract :=
  { address := "0xabc", symbol := "TKN", dev_address := "0xdev", liquidity := 5 }

/-- An empty dedup store. -/
def store0 : Store := fun _ => none

/-- A store already holding a `processing` marker for `c0`. -/
def store1 : Store :=
  fun k => if k = "0xabc" then some (600, "processing") else none

/-- An environment whose DeepSeek service is down (every attempt raises) and
whose other services succeed; fusion degrades a null base analysis to
grade `C`. -/
def envFail : Env :=
  { gmgn_safety_check := fun _ => .ok true
    get_market_context := .ok "mkt"
    renderPrompt := fun _ m => "prompt " ++ m
    deepseekAttempt := fun _ _ => .error "timeout"
    check_dev_expertise := fun _ => .ok 1
    verify_market_hype := fun _ => .ok 2
    simulate_trading := fun _ => .ok 3
    fusion_results := fun a _ =>
      match a with
      | none => { grade := "C" }
      | some b => b
    generate_visual_report := fun _ _ => .ok { text := "t", chart := "png" }
    send_photo := fun _ _ _ => .ok ()
    tg_chat_id := "chat1" }

/-- Like `envFail` but the safety filter rejects every contract. -/
def envSafeFalse : Env :=
  { envFail with gmgn_safety_check := fun _ => .ok false }

/-! Helper lemmas shared by several claim proofs. -/

theorem retryLoop_no_push (env : Env) (p : String) (fuel k : Nat) :
    Event.pushAlert ∉ (retryLoop env p fuel k).2 := by
  induction fuel generalizing k with
  | zero => simp [retryLoop]
  | succ n ih =>
    cases hA : env.deepseekAttempt p k with
    | ok a => simp [retryLoop, hA]
    | error e => simpa [retryLoop, hA] using ih (k + 1)

theorem base_analysis_no_push (env : Env) (c : Contract) :
    Event.pushAlert ∉ (base_analysis env c).2 := by
  cases hM : env.get_market_context with
  | error e => simp [base_analysis, hM]
  | ok mkt =>
    simpa [base_analysis, hM] using
      retryLoop_no_push env (env.renderPrompt c mkt) 3 0

theorem cross_validate_no_push (env : Env) (c : Contract) (a : Option Analysis) :
    Event.pushAlert ∉ (cross_validate env c a).2 := by
  cases hD : env.check_dev_expertise c.dev_address <;>
    cases hH : env.verify_market_hype c.symbol <;>
      cases hV : env.simulate_trading c.liquidity <;>
        simp [cross_validate, hD, hH, hV]

theorem enhanced_analysis_no_push (env : Env) (c : Contract) :
    Event.pushAlert ∉ (enhanced_analysis env c).2 := by
  have hb := base_analysis_no_push env c
  rcases hB : base_analysis env c with ⟨rb, trb⟩
  rw [hB] at hb
  cases rb with
  | error e => simpa [enhanced_analysis, hB] using hb
  | ok analysis =>
    have hc := cross_validate_no_push env c analysis
    rcases hC : cross_validate env c analysis with ⟨rc, trc⟩
    rw [hC] at hc
    cases rc with
    | error e =>
      simp only [enhanced_analysis, hB, hC, List.mem_append]
      exact fun h => h.elim hb hc
    | ok verification =>
      simp only [enhanced_analysis, hB, hC, List.mem_append]
      exact fun h => h.elim hb hc

theorem retryLoop_attempt_bound (env : Env) (p : String) (fuel : Nat) :
    ∀ k, attemptCount (retryLoop env p fuel k).2 ≤ fuel := by
  induction fuel with
  | zero => intro k; simp [retryLoop, attemptCount]
  | succ n ih =>
    intro k
    cases hA : env.deepseekAttempt p k with
    | ok a => simp [retryLoop, hA, attemptCount]
    | error e =>
      have := ih (k + 1)
      simp [retryLoop, hA, attemptCount, List.countP_cons] at this ⊢
      omega

/-- C1: for every contract whose address has no dedup record when
`process_contract` starts (so the `processing` marker is set), whatever the
environment does on the safety check, the analysis, the report generation and
the push — succeed, reject, or raise — after `process_contract` finishes no
dedup marker remains for that address: the `finally` block deletes it on every
exit path. -/
theorem C1_marker_released_on_every_exit (env : Env) (s : Store) (c : Contract)
    (h : s c.address = none) :
    (process_contract env s c).2.1 c.address = none := by
  simp [process_contract, h, Store.del]

/-- C1 witness: on the empty store, the store left by a concrete run holds no
marker for the contract's address. -/
theorem C1_marker_released_on_every_exit_witness :
    (process_contract envFail store0 c0).2.1 c0.address = none :=
  C1_marker_released_on_every_exit envFail store0 c0 rfl

/-- C3: for every contract whose address already has a dedup record, the call
is a no-op: it returns normally, the store is unchanged (the marker is neither
overwritten nor deleted), and no external call at all is made (empty trace:
no safety check, no analysis, no report, no push). -/
theorem C3_dedup_hit_is_noop (env : Env) (s : Store) (c : Contract)
    (x : Nat × String) (h : s c.address = some x) :
    process_contract env s c = (.ok (), s, []) := by
  simp [process_contract, h]

/-- C3 witness: on a store already marking `c0`, a concrete run returns
normally with the store untouched and an empty trace. -/
theorem C3_dedup_hit_is_noop_witness :
    process_contract envFail store1 c0 = (.ok (), store1, []) :=
  C3_dedup_hit_is_noop envFail store1 c0 (600, "processing") (by decide)

/-- C8: for every contract whose address has no dedup record,
`process_contract` stores the marker `processing` under the contract's address
with a 600-second expiry — `setex` maps the address to `(600, "processing")` —
and this `setex` is the first event of the run, before the safety check, the
analysis, the report generation and the push. -/
theorem C8_marker_set_first (env : Env) (s : Store) (c : Contract)
    (h : s c.address = none) :
    (s.setex c.address 600 "processing") c.address = some (600, "processing") ∧
      ∃ rest, (process_contract env s c).2.2 =
        Event.setex c.address 600 "processing" :: rest := by
  refine ⟨by simp [Store.setex], ?_⟩
  refine ⟨(pipeline_body env c).2 ++ [Event.redisDelete c.address], ?_⟩
  simp [process_contract, h]

/-- C8 witness: a concrete run on the empty store opens its trace with the
`setex` of the `processing` marker at TTL 600. -/
theorem C8_marker_set_first_witness :
    (store0.setex c0.address 600 "processing") c0.address =
        some (600, "processing") ∧
      ∃ rest, (process_contract envFail store0 c0).2.2 =
        Event.setex c0.address 600 "processing" :: rest :=
  C8_marker_set_first envFail store0 c0 rfl

/-- C9: whenever the three checks succeed, `cross_validate` returns exactly
the structure whose `dev_skill` is the developer-reputation check applied to
the contract's `dev_address`, whose `hype_index` is the hype check applied to
its `symbol`, and whose `volatility` is the trading simulation applied to its
`liquidity`. -/
theorem C9_cross_validate_shape (env : Env) (c : Contract)
    (a : Option Analysis) (d h v : Int)
    (hd : env.check_dev_expertise c.dev_address = .ok d)
    (hh : env.verify_market_hype c.symbol = .ok h)
    (hv : env.simulate_trading c.liquidity = .ok v) :
    (cross_validate env c a).1 =
      .ok { dev_skill := d, hype_index := h, volatility := v } := by
  simp [cross_validate, hd, hh, hv]

/-- C9 witness: on a concrete environment the gathered structure is exactly
the three oracle results. -/
theorem C9_cross_validate_shape_witness :
    (cross_validate envFail c0 none).1 =
      .ok { dev_skill := 1, hype_index := 2, volatility := 3 } :=
  C9_cross_validate_shape envFail c0 none 1 2 3 rfl rfl rfl

/-- When every DeepSeek attempt fails, `base_analysis` runs exactly three
attempts with backoff sleeps of 1, 2 and 4 seconds and returns `none`. -/
theorem base_analysis_all_fail (env : Env) (c : Contract) (mkt : String)
    (e0 e1 e2 : Err)
    (hmkt : env.get_market_context = .ok mkt)
    (h0 : env.deepseekAttempt (env.renderPrompt c mkt) 0 = .error e0)
    (h1 : env.deepseekAttempt (env.renderPrompt c mkt) 1 = .error e1)
    (h2 : env.deepseekAttempt (env.renderPrompt c mkt) 2 = .error e2) :
    base_analysis env c = (.ok none,
      [.marketContext, .deepseekAttempt 0, .sleep 1, .deepseekAttempt 1,
        .sleep 2, .deepseekAttempt 2, .sleep 4]) := by
  simp [base_analysis, retryLoop, hmkt, h0, h1, h2]

/-- C4: `base_analysis` makes at most 3 attempts to call the analysis client
(whatever the environment does), and given 3 consecutive failures it returns
a null result (`Except.ok none`) instead of propagating the failure. -/
theorem C4_retry_capped_then_null (env : Env) (c : Contract) (mkt : String)
    (hmkt : env.get_market_context = .ok mkt)
    (hfail : ∀ k, ∃ e,
      env.deepseekAttempt (env.renderPrompt c mkt) k = .error e) :
    (base_analysis env c).1 = .ok none ∧
      ∀ (env2 : Env) (c2 : Contract),
        attemptCount (base_analysis env2 c2).2 ≤ 3 := by
  constructor
  · obtain ⟨e0, h0⟩ := hfail 0
    obtain ⟨e1, h1⟩ := hfail 1
    obtain ⟨e2, h2⟩ := hfail 2
    rw [base_analysis_all_fail env c mkt e0 e1 e2 hmkt h0 h1 h2]
  · intro env2 c2
    cases hM : env2.get_market_context with
    | error e => simp [base_analysis, hM, attemptCount]
    | ok m =>
      have hbound := retryLoop_attempt_bound env2 (env2.renderPrompt c2 m) 3 0
      simp [base_analysis, hM, attemptCount, List.countP_cons] at hbound ⊢
      omega

/-- C4 witness: on an environment whose DeepSeek call always raises, a
concrete run returns `ok none` after exactly the capped number of attempts. -/
theorem C4_retry_capped_then_null_witness :
    (base_analysis envFail c0).1 = .ok none ∧
      ∀ (env2 : Env) (c2 : Contract),
        attemptCount (base_analysis env2 c2).2 ≤ 3 :=
  C4_retry_capped_then_null envFail c0 "mkt" rfl (fun _ => ⟨"timeout", rfl⟩)

/-- C5: after the k-th failed attempt (k counted from 0, attempts 0, 1 and 2
all failing up to k), the trace of `base_analysis` shows the backoff sleeps
`2 ^ 0 = 1`, `2 ^ 1 = 2`, …, `2 ^ k` seconds, each immediately after its
failed attempt (`backoffEvents (k + 1)`), and when another attempt remains
the next attempt follows that wait immediately. -/
theorem C5_backoff_is_two_pow (env : Env) (c : Contract) (mkt : String)
    (k : Nat)
    (hmkt : env.get_market_context = .ok mkt)
    (hk : k < 3)
    (hfail : ∀ j, j ≤ k → ∃ e,
      env.deepseekAttempt (env.renderPrompt c mkt) j = .error e) :
    ∃ rest, (base_analysis env c).2 =
        Event.marketContext :: (backoffEvents (k + 1) ++ rest) ∧
      (k + 1 < 3 → ∃ rest2, rest = Event.deepseekAttempt (k + 1) :: rest2) := by
  obtain ⟨e0, h0⟩ := hfail 0 (by omega)
  interval_cases k
  · cases hA1 : env.deepseekAttempt (env.renderPrompt c mkt) 1 with
    | ok a =>
      refine ⟨[Event.deepseekAttempt 1], ?_, fun _ => ⟨[], rfl⟩⟩
      simp [base_analysis, retryLoop, hmkt, h0, hA1, backoffEvents]
    | error e =>
      cases hA2 : env.deepseekAttempt (env.renderPrompt c mkt) 2 with
      | ok a =>
        refine ⟨[Event.deepseekAttempt 1, Event.sleep 2, Event.deepseekAttempt 2],
          ?_, fun _ => ⟨[Event.sleep 2, Event.deepseekAttempt 2], rfl⟩⟩
        simp [base_analysis, retryLoop, hmkt, h0, hA1, hA2, backoffEvents]
      | error e2 =>
        refine ⟨[Event.deepseekAttempt 1, Event.sleep 2, Event.deepseekAttempt 2,
          Event.sleep 4], ?_,
          fun _ => ⟨[Event.sleep 2, Event.deepseekAttempt 2, Event.sleep 4], rfl⟩⟩
        simp [base_analysis, retryLoop, hmkt, h0, hA1, hA2, backoffEvents]
  · obtain ⟨e1, h1⟩ := hfail 1 (by omega)
    cases hA2 : env.deepseekAttempt (env.renderPrompt c mkt) 2 with
    | ok a =>
      refine ⟨[Event.deepseekAttempt 2], ?_, fun _ => ⟨[], rfl⟩⟩
      simp [base_analysis, retryLoop, hmkt, h0, h1, hA2, backoffEvents]
    | error e2 =>
      refine ⟨[Event.deepseekAttempt 2, Event.sleep 4], ?_,
        fun _ => ⟨[Event.sleep 4], rfl⟩⟩
      simp [base_analysis, retryLoop, hmkt, h0, h1, hA2, backoffEvents]
  · obtain ⟨e1, h1⟩ := hfail 1 (by omega)
    obtain ⟨e2, h2⟩ := hfail 2 (by omega)
    refine ⟨[], ?_, fun hcon => absurd hcon (by omega)⟩
    rw [base_analysis_all_fail env c mkt e0 e1 e2 hmkt h0 h1 h2]
    simp [backoffEvents]

/-- C5 witness: with every attempt failing, after the second failed attempt
(k = 1) the trace shows sleeps of 1 and 2 seconds, each failed attempt
followed by its wait and the wait by the next attempt. -/
theorem C5_backoff_is_two_pow_witness :
    ∃ rest, (base_analysis envFail c0).2 =
        Event.marketContext :: (backoffEvents 2 ++ rest) ∧
      (2 < 3 → ∃ rest2, rest = Event.deepseekAttempt 2 :: rest2) :=
  C5_backoff_is_two_pow envFail c0 "mkt" 1 rfl (by omega)
    (fun _ _ => ⟨"timeout", rfl⟩)

/-- C6: for every contract whose safety check returns `False`, `push_alert`
is never invoked in the run and no analysis-stage event (market context,
DeepSeek attempt, backoff sleep, or any cross-validation check) occurs: the
negative result short-circuits the pipeline before the analysis stage. -/
theorem C6_safety_false_short_circuits (env : Env) (c : Contract) (s : Store)
    (h : env.gmgn_safety_check c = .ok false) :
    Event.pushAlert ∉ (process_contract env s c).2.2 ∧
      ∀ ev ∈ (process_contract env s c).2.2, isAnalysisEvent ev = false := by
  by_cases hdup : (s c.address).isSome
  · simp [process_contract, hdup]
  · simp [process_contract, hdup, pipeline_body, h, isAnalysisEvent]

/-- C6 witness: a concrete run whose safety check rejects never pushes and
never reaches the analysis stage. -/
theorem C6_safety_false_short_circuits_witness :
    Event.pushAlert ∉ (process_contract envSafeFalse store0 c0).2.2 ∧
      ∀ ev ∈ (process_contract envSafeFalse store0 c0).2.2,
        isAnalysisEvent ev = false :=
  C6_safety_false_short_circuits envSafeFalse c0 store0 rfl

/-- C7: for every contract whose fused analysis (the result of
`enhanced_analysis`, whenever it produces one) has a grade outside the
accepted set `investment_grade = ["A+", "A", "B+"]`, `push_alert` is never
invoked during the `process_contract` run. -/
theorem C7_grade_gate_no_push (env : Env) (c : Contract) (s : Store)
    (h : ∀ g, (enhanced_analysis env c).1 = .ok g →
      g.grade ∉ investment_grade) :
    Event.pushAlert ∉ (process_contract env s c).2.2 := by
  by_cases hdup : (s c.address).isSome
  · simp [process_contract, hdup]
  · have hne := enhanced_analysis_no_push env c
    rcases hE : enhanced_analysis env c with ⟨re, tre⟩
    rw [hE] at hne
    cases hS : env.gmgn_safety_check c with
    | error e => simp [process_contract, hdup, pipeline_body, hS]
    | ok b =>
      cases b with
      | false => simp [process_contract, hdup, pipeline_body, hS]
      | true =>
        cases re with
        | error e =>
          simp [process_contract, hdup, pipeline_body, hS, hE, hne]
        | ok g =>
          have hg := h g (by rw [hE])
          simp [process_contract, hdup, pipeline_body, hS, hE, hg, hne]

/-- C7 witness: a concrete run whose fused grade is `C` (outside the accepted
set) never pushes. -/
theorem C7_grade_gate_no_push_witness :
    Event.pushAlert ∉ (process_contract envFail store0 c0).2.2 := by
  refine C7_grade_gate_no_push envFail c0 store0 ?_
  intro g hg
  have he : (enhanced_analysis envFail c0).1 = .ok { grade := "C" } := rfl
  rw [he] at hg
  injection hg with hg2
  subst hg2
  decide

/-- C2: when every DeepSeek attempt fails so base analysis yields a null
result, and the rest of the run is healthy (marker free, safety passes,
cross-validation checks succeed), `process_contract` treats the null analysis
as a filter-rejection: it returns normally (`ok`) without ever invoking
`push_alert` — there is no crash.  Uses the spec-modelled
`fusionDegradesNull` property of the undefined `fusion_results`. -/
theorem C2_null_analysis_is_rejection (env : Env) (s : Store) (c : Contract)
    (mkt : String)
    (hs : s c.address = none)
    (hsafe : env.gmgn_safety_check c = .ok true)
    (hmkt : env.get_market_context = .ok mkt)
    (hfail : ∀ k, ∃ e,
      env.deepseekAttempt (env.renderPrompt c mkt) k = .error e)
    (hdev : ∃ d, env.check_dev_expertise c.dev_address = .ok d)
    (hhype : ∃ x, env.verify_market_hype c.symbol = .ok x)
    (hvol : ∃ v, env.simulate_trading c.liquidity = .ok v)
    (hfuse : fusionDegradesNull env) :
    (process_contract env s c).1 = .ok () ∧
      Event.pushAlert ∉ (process_contract env s c).2.2 := by
  obtain ⟨e0, h0⟩ := hfail 0
  obtain ⟨e1, h1⟩ := hfail 1
  obtain ⟨e2, h2⟩ := hfail 2
  obtain ⟨d, hd⟩ := hdev
  obtain ⟨x, hx⟩ := hhype
  obtain ⟨v, hv⟩ := hvol
  have hb := base_analysis_all_fail env c mkt e0 e1 e2 hmkt h0 h1 h2
  have hcv : cross_validate env c none =
      (.ok { dev_skill := d, hype_index := x, volatility := v },
        [.devCheck c.dev_address, .hypeCheck c.symbol,
          .simTrading c.liquidity]) := by
    simp [cross_validate, hd, hx, hv]
  have hg := hfuse { dev_skill := d, hype_index := x, volatility := v }
  constructor
  · simp [process_contract, hs, pipeline_body, hsafe, enhanced_analysis,
      hb, hcv, hg]
  · simp [process_contract, hs, pipeline_body, hsafe, enhanced_analysis,
      hb, hcv, hg]

/-- C2 witness: a concrete run with the DeepSeek service down returns
normally and never pushes. -/
theorem C2_null_analysis_is_rejection_witness :
    (process_contract envFail store0 c0).1 = .ok () ∧
      Event.pushAlert ∉ (process_contract envFail store0 c0).2.2 :=
  C2_null_analysis_is_rejection envFail store0 c0 "mkt" rfl rfl rfl
    (fun _ => ⟨"timeout", rfl⟩) ⟨1, rfl⟩ ⟨2, rfl⟩ ⟨3, rfl⟩
    (by intro v; exact (show ("C" : String) ∉ investment_grade by decide))

/-- C10: a null base analysis does not short-circuit `enhanced_analysis`:
cross-validation still runs (its three check events appear in the trace and
it receives the null analysis as its unused second argument), the null base
result together with the gathered verification structure is handed to
`fusion_results`, and that fused output is exactly what the grade membership
test of `process_contract` inspects — rejecting (no push) when its grade is
outside `investment_grade` and pushing when it is inside and the report
succeeds. -/
theorem C10_null_base_reaches_fusion (env : Env) (c : Contract) (mkt : String)
    (d x v : Int)
    (hmkt : env.get_market_context = .ok mkt)
    (hfail : ∀ k, ∃ e,
      env.deepseekAttempt (env.renderPrompt c mkt) k = .error e)
    (hd : env.check_dev_expertise c.dev_address = .ok d)
    (hx : env.verify_market_hype c.symbol = .ok x)
    (hv : env.simulate_trading c.liquidity = .ok v) :
    (enhanced_analysis env c).1 =
        .ok (env.fusion_results none
          { dev_skill := d, hype_index := x, volatility := v }) ∧
      Event.devCheck c.dev_address ∈ (enhanced_analysis env c).2 ∧
      Event.hypeCheck c.symbol ∈ (enhanced_analysis env c).2 ∧
      Event.simTrading c.liquidity ∈ (enhanced_analysis env c).2 ∧
      ∀ s : Store, s c.address = none →
        env.gmgn_safety_check c = .ok true →
        ((env.fusion_results none
              { dev_skill := d, hype_index := x, volatility := v }).grade ∉
            investment_grade →
          Event.pushAlert ∉ (process_contract env s c).2.2) ∧
        ∀ rep,
          env.generate_visual_report c
              (env.fusion_results none
                { dev_skill := d, hype_index := x, volatility := v }) =
            .ok rep →
          (env.fusion_results none
              { dev_skill := d, hype_index := x, volatility := v }).grade ∈
            investment_grade →
          Event.pushAlert ∈ (process_contract env s c).2.2 := by
  obtain ⟨e0, h0⟩ := hfail 0
  obtain ⟨e1, h1⟩ := hfail 1
  obtain ⟨e2, h2⟩ := hfail 2
  have hb := base_analysis_all_fail env c mkt e0 e1 e2 hmkt h0 h1 h2
  have hcv : cross_validate env c none =
      (.ok { dev_skill := d, hype_index := x, volatility := v },
        [.devCheck c.dev_address, .hypeCheck c.symbol,
          .simTrading c.liquidity]) := by
    simp [cross_validate, hd, hx, hv]
  refine ⟨?_, ?_, ?_, ?_, ?_⟩
  · simp [enhanced_analysis, hb, hcv]
  · simp [enhanced_analysis, hb, hcv]
  · simp [enhanced_analysis, hb, hcv]
  · simp [enhanced_analysis, hb, hcv]
  · intro s hs hsafe
    constructor
    · intro hg
      simp [process_contract, hs, pipeline_body, hsafe, enhanced_analysis,
        hb, hcv, hg]
    · intro rep hrep hg
      simp [process_contract, hs, pipeline_body, hsafe, enhanced_analysis,
        hb, hcv, hg, hrep, push_alert]

/-- C10 witness: on a concrete environment with the DeepSeek service down,
the fused output of the null base result is what the grade gate inspects. -/
theorem C10_null_base_reaches_fusion_witness :
    (enhanced_analysis envFail c0).1 =
        .ok (envFail.fusion_results none
          { dev_skill := 1, hype_index := 2, volatility := 3 }) ∧
      Event.devCheck c0.dev_address ∈ (enhanced_analysis envFail c0).2 ∧
      Event.hypeCheck c0.symbol ∈ (enhanced_analysis envFail c0).2 ∧
      Event.simTrading c0.liquidity ∈ (enhanced_analysis envFail c0).2 ∧
      ∀ s : Store, s c0.address = none →
        envFail.gmgn_safety_check c0 = .ok true →
        ((envFail.fusion_results none
              { dev_skill := 1, hype_index := 2, volatility := 3 }).grade ∉
            investment_grade →
          Event.pushAlert ∉ (process_contract envFail s c0).2.2) ∧
        ∀ rep,
          envFail.generate_visual_report c0
              (envFail.fusion_results none
                { dev_skill := 1, hype_index := 2, volatility := 3 }) =
            .ok rep →
          (envFail.fusion_results none
              { dev_skill := 1, hype_index := 2, volatility := 3 }).grade ∈
            investment_grade →
          Event.pushAlert ∈ (process_contract envFail s c0).2.2 :=
  C10_null_base_reaches_fusion envFail c0 "mkt" 1 2 3 rfl
    (fun _ => ⟨"timeout", rfl⟩) rfl rfl rfl

end PumpMonitor
